import Mathlib

/-!
Shallow embedding of the LangGraph plus Amazon Bedrock tool-calling loop of
src/agents-and-function-calling/open-source-agents/langgraph/get-weather.ts,
together with theorems settling the specification claims about it.
-/

namespace GetWeather

/-- Conversation roles of the Bedrock Converse API: the source only ever
constructs messages with role user or assistant. -/
inductive Role
  | user
  | assistant
deriving DecidableEq

/-- Structured input of a tool request: the source casts the input of the
search tool to a record with a single query field (line 135). -/
structure ToolInput where
  query : String
deriving DecidableEq

/-- Content blocks of a Converse message as used by the source: a text block,
a toolUse block (a tool request carrying an id, a tool name and structured
input) or a toolResult block (the request id plus a list of text contents). -/
inductive ContentBlock
  | text (t : String)
  | toolUse (toolUseId : String) (name : String) (input : ToolInput)
  | toolResult (toolUseId : String) (content : List String)
deriving DecidableEq

/-- Bedrock Converse message: a role and an optional list of content blocks
(the content field of the SDK type is optional; the source guards for its
absence with optional chaining). -/
structure Message where
  role : Role
  content : Option (List ContentBlock)
deriving DecidableEq

/-- Output part of a Converse response: an optional message. -/
structure ConverseOutput where
  message : Option Message
deriving DecidableEq

/-- Converse response as used by the source: an optional output and a stop
reason that is only logged. -/
structure ConverseResponse where
  output : Option ConverseOutput
  stopReason : Option String
deriving DecidableEq

/-- Modelled from the spec: the gateway failures RateLimited, Timeout and
Malformed that a ModelGateway call may raise. The Bedrock SDK client that
raises them is an external collaborator and not part of the repository
source; the source itself installs no handler around the call. -/
inductive GatewayError
  | rateLimited
  | timeout
  | malformed
deriving DecidableEq

/-- One tool schema advertised to the model. -/
structure ToolSpec where
  name : String
  description : String
deriving DecidableEq

/-- Tool configuration of the source (lines 51 to 72): a single tool named
search. -/
def bedrockToolConfig : List ToolSpec :=
  [⟨"search", "Use this tool to query the web for weather information."⟩]

/-- Lowercasing as used by the search tool, mapped over the characters of the
string. -/
def strToLower (s : String) : String :=
  ⟨s.data.map Char.toLower⟩

/-- Substring test on character lists: true when the pattern occurs as a
contiguous run, the recursion trying every suffix. -/
def listIncludes (pat : List Char) : List Char → Bool
  | [] => pat.isEmpty
  | c :: rest => pat.isPrefixOf (c :: rest) || listIncludes pat rest

/-- Substring test on strings, modelling the includes method used at lines 78
and 79 of the source. -/
def strIncludes (s pat : String) : Bool :=
  listIncludes pat.data s.data

/-- Tool implementation (lines 75 to 84): the foggy San Francisco answer when
the lowercased query includes sf or san francisco, the sunny answer
otherwise. -/
def searchTool (input : ToolInput) : String :=
  if strIncludes (strToLower input.query) ("sf")
      || strIncludes (strToLower input.query) ("san francisco") then
    ("It\x27s 60 degrees and foggy in San Francisco.")
  else
    ("It\x27s 90 degrees and sunny.")

/-- Assistant message built from a Converse response (lines 100 to 103):
content is the content of the output message, with the empty list as fallback
when any optional step is absent. -/
def assistantMessageOf (response : ConverseResponse) : Message :=
  ⟨Role.assistant,
    some (((response.output.bind ConverseOutput.message).bind Message.content).getD [])⟩

/-- Model node (lines 87 to 107): send the full message history to the
gateway; on success the node yields one assistant message to append; on
failure the error propagates, since the source wraps the call in no try
block. -/
def callBedrockModel (gateway : List Message → Except GatewayError ConverseResponse)
    (messages : List Message) : Except GatewayError (List Message) :=
  match gateway messages with
  | Except.error e => Except.error e
  | Except.ok response => Except.ok [assistantMessageOf response]

/-- Projection selecting toolUse blocks, as the filter in executeTools
(lines 114 to 118). -/
def toolUseOf : ContentBlock → Option (String × String × ToolInput)
  | ContentBlock.toolUse id name input => some (id, name, input)
  | _ => none

/-- Predicate used by shouldContinue: the block is a toolUse block. -/
def isToolUse : ContentBlock → Bool
  | ContentBlock.toolUse _ _ _ => true
  | _ => false

/-- Dispatch of one tool request (lines 133 to 138): the search tool when the
requested name is search, otherwise the unknown tool text. -/
def runTool (name : String) (input : ToolInput) : String :=
  if name == "search" then searchTool input
  else "Unknown tool: " ++ name

/-- Result block built for one request (lines 140 to 145): it carries the
toolUseId of the request and a single text content with the dispatch
result. -/
def mkToolResultBlock (r : String × String × ToolInput) : ContentBlock :=
  ContentBlock.toolResult r.1 [runTool r.2.1 r.2.2]

/-- Tool node (lines 110 to 149): filter the toolUse blocks of the last
message; throw when there are none; otherwise yield one user message holding
one toolResult block per request, in request order. On an empty state the
source would crash reading the last message; that branch is unreachable in
the compiled graph. -/
def executeTools (messages : List Message) : Except String (List Message) :=
  match messages.getLast? with
  | none => Except.error ("TypeError: no last message")
  | some lastMessage =>
    let toolUseBlocks := (lastMessage.content.getD []).filterMap toolUseOf
    if toolUseBlocks.length == 0 then
      Except.error ("No tool calls found in message.")
    else
      Except.ok [⟨Role.user, some (toolUseBlocks.map mkToolResultBlock)⟩]

/-- Tool request presence test of shouldContinue (lines 155 to 158): optional
chaining over content, false when content is absent. -/
def messageHasToolUse (m : Message) : Bool :=
  (m.content.map (fun blocks => blocks.any isToolUse)).getD false

/-- Targets of the conditional edge: the tools node or the end of the
graph. -/
inductive Route
  | tools
  | endRoute
deriving DecidableEq

/-- Conditional edge (lines 152 to 164): to the tools node when the last
message has a toolUse block, otherwise to the end. The none branch is
unreachable in the compiled graph, where the model node appends a message
before routing. -/
def shouldContinue (messages : List Message) : Route :=
  match messages.getLast? with
  | none => Route.endRoute
  | some lastMessage =>
    if messageHasToolUse lastMessage then Route.tools else Route.endRoute

/-- Reducer of the messages channel of GraphState (lines 43 to 48):
concatenation of the previous value with the appended messages. -/
def messagesReducer (a b : List Message) : List Message := a ++ b

/-- Causes of a failed run: a gateway error, a thrown tool node error, or the
exhausted turn bound. -/
inductive FailureCause
  | gatewayError (e : GatewayError)
  | toolError (msg : String)
  | maxTurnsExceeded
deriving DecidableEq

/-- Terminal outcome of a run. -/
inductive Outcome
  | done
  | failed (cause : FailureCause)
deriving DecidableEq

/-- Result of a run: terminal outcome, final message log, number of gateway
calls issued, and number of completed model to tools cycles. -/
structure RunResult where
  outcome : Outcome
  messages : List Message
  gatewayCalls : Nat
  toolCycles : Nat
deriving DecidableEq

/-- Modelled from the spec: the graph runtime driving bedrockWorkflow is
framework code outside the repository. This loop follows the wiring of the
source (lines 167 to 176: start to model, conditional edge from model to
tools or end, edge from tools back to model) together with the caller
supplied maximum turn count of the specification, decremented on each model
to tools cycle and yielding Failed MaxTurnsExceeded when exhausted. -/
def runWorkflow (gateway : List Message → Except GatewayError ConverseResponse) :
    Nat → List Message → Nat → Nat → RunResult
  | turnsLeft, messages, calls, cycles =>
    match callBedrockModel gateway messages with
    | Except.error e =>
      ⟨Outcome.failed (FailureCause.gatewayError e), messages, calls + 1, cycles⟩
    | Except.ok appended =>
      let messages2 := messagesReducer messages appended
      match shouldContinue messages2 with
      | Route.endRoute => ⟨Outcome.done, messages2, calls + 1, cycles⟩
      | Route.tools =>
        match turnsLeft with
        | 0 => ⟨Outcome.failed FailureCause.maxTurnsExceeded, messages2, calls + 1, cycles⟩
        | n + 1 =>
          match executeTools messages2 with
          | Except.error s =>
            ⟨Outcome.failed (FailureCause.toolError s), messages2, calls + 1, cycles⟩
          | Except.ok appended2 =>
            runWorkflow gateway n (messagesReducer messages2 appended2) (calls + 1) (cycles + 1)

/-- Entry point of a workflow run: start at the model node with the initial
messages and fresh counters. -/
def bedrockWorkflow (gateway : List Message → Except GatewayError ConverseResponse)
    (maxTurns : Nat) (initialMessages : List Message) : RunResult :=
  runWorkflow gateway maxTurns initialMessages 0 0

/-- Requests carried by the assistant turn built from a gateway response. -/
def requestsOf (response : ConverseResponse) : List (String × String × ToolInput) :=
  ((assistantMessageOf response).content.getD []).filterMap toolUseOf

/-- Modelled from the spec: the message roles of the specification data model
are user, assistant and tool result. -/
inductive SpecRole
  | user
  | assistant
  | toolResultRole
deriving DecidableEq

/-- Refinement map from the source roles into the spec roles. -/
def Role.toSpec : Role → SpecRole
  | Role.user => SpecRole.user
  | Role.assistant => SpecRole.assistant

/-! Concrete fixtures used to instantiate the claim theorems. -/

/-- Initial conversation of the source run (lines 183 to 190). -/
def initialState : List Message :=
  [⟨Role.user, some [ContentBlock.text ("What is the weather in Los Angeles?")]⟩]

/-- Response stub carrying a plain text assistant turn. -/
def plainResponse : ConverseResponse :=
  ⟨some ⟨some ⟨Role.assistant, some [ContentBlock.text ("Hello")]⟩⟩, some ("end_turn")⟩

/-- Gateway stub that always answers with the plain text turn. -/
def plainGateway : List Message → Except GatewayError ConverseResponse :=
  fun _ => Except.ok plainResponse

/-- Response stub requesting the search tool. -/
def alwaysToolResponse : ConverseResponse :=
  ⟨some ⟨some ⟨Role.assistant,
    some [ContentBlock.toolUse ("t1") ("search") ⟨"weather in sf"⟩]⟩⟩, some ("tool_use")⟩

/-- Gateway stub that requests the search tool on every call. -/
def alwaysToolGateway : List Message → Except GatewayError ConverseResponse :=
  fun _ => Except.ok alwaysToolResponse

/-- Gateway stub that fails with a timeout. -/
def failingGateway : List Message → Except GatewayError ConverseResponse :=
  fun _ => Except.error GatewayError.timeout

/-- Response stub whose output is absent. -/
def absentOutputResponse : ConverseResponse := ⟨none, some ("end_turn")⟩

/-- Gateway stub whose response carries no output message. -/
def absentOutputGateway : List Message → Except GatewayError ConverseResponse :=
  fun _ => Except.ok absentOutputResponse

/-- Response stub requesting an unregistered tool. -/
def unknownToolResponse : ConverseResponse :=
  ⟨some ⟨some ⟨Role.assistant,
    some [ContentBlock.toolUse ("u1") ("calculator") ⟨"2+2"⟩]⟩⟩, some ("tool_use")⟩

/-- Gateway stub requesting an unregistered tool on every call. -/
def unknownToolGateway : List Message → Except GatewayError ConverseResponse :=
  fun _ => Except.ok unknownToolResponse

/-- Concrete state whose last turn carries two requests, the second naming an
unregistered tool. -/
def twoRequestState : List Message :=
  [⟨Role.assistant, some
    [ContentBlock.toolUse ("id1") ("search") ⟨"weather in sf"⟩,
     ContentBlock.toolUse ("id2") ("lookup") ⟨"la"⟩]⟩]

/-- Result blocks the tool node builds for twoRequestState. -/
def twoRequestBlocks : List ContentBlock :=
  [ContentBlock.toolResult ("id1") ["It\x27s 60 degrees and foggy in San Francisco."],
   ContentBlock.toolResult ("id2") ["Unknown tool: lookup"]]

/-- Concrete state whose last turn carries a single search request. -/
def oneRequestState : List Message :=
  [⟨Role.assistant, some [ContentBlock.toolUse ("t1") ("search") ⟨"weather in sf"⟩]⟩]

/-- Concrete state whose last turn carries a single request for an
unregistered tool. -/
def unknownRequestState : List Message :=
  [⟨Role.assistant, some [ContentBlock.toolUse ("t9") ("lookup") ⟨"la"⟩]⟩]

/-- Concrete state whose last turn carries only text. -/
def textOnlyState : List Message :=
  [⟨Role.assistant, some [ContentBlock.text ("Hello")]⟩]

/-! Helper lemmas shared by the claim theorems. -/

theorem filterMap_toolUseOf_eq_nil_iff (blocks : List ContentBlock) :
    blocks.filterMap toolUseOf = [] ↔ blocks.any isToolUse = false := by
  induction blocks with
  | nil => simp
  | cons b rest ih => cases b <;> simp [toolUseOf, isToolUse, ih]

theorem executeTools_append (messages : List Message) (m : Message) :
    executeTools (messages ++ [m]) =
      (if ((m.content.getD []).filterMap toolUseOf).length == 0 then
        Except.error ("No tool calls found in message.")
      else
        Except.ok
          [⟨Role.user, some (((m.content.getD []).filterMap toolUseOf).map mkToolResultBlock)⟩]) := by
  simp [executeTools]

theorem executeTools_ok (messages : List Message) (m : Message)
    (hm : messages.getLast? = some m)
    (hne : (m.content.getD []).filterMap toolUseOf ≠ []) :
    executeTools messages =
      Except.ok
        [⟨Role.user, some (((m.content.getD []).filterMap toolUseOf).map mkToolResultBlock)⟩] := by
  have hlen : (((m.content.getD []).filterMap toolUseOf).length == 0) = false := by
    rw [beq_eq_false_iff_ne]
    simpa [List.length_eq_zero] using hne
  simp [executeTools, hm, hlen]

theorem shouldContinue_append (messages : List Message) (m : Message) :
    shouldContinue (messages ++ [m]) =
      (if messageHasToolUse m then Route.tools else Route.endRoute) := by
  simp [shouldContinue]

theorem messageHasToolUse_assistant (response : ConverseResponse) :
    messageHasToolUse (assistantMessageOf response) = !(requestsOf response).isEmpty := by
  rcases hreq : requestsOf response with _ | ⟨r, rest⟩
  · have hany := (filterMap_toolUseOf_eq_nil_iff
      (((response.output.bind ConverseOutput.message).bind Message.content).getD [])).mp hreq
    simp [messageHasToolUse, assistantMessageOf, hany]
  · have hne : ((assistantMessageOf response).content.getD []).filterMap toolUseOf ≠ [] := by
      rw [show ((assistantMessageOf response).content.getD []).filterMap toolUseOf
            = requestsOf response from rfl, hreq]
      simp
    have hany :
        (((response.output.bind ConverseOutput.message).bind Message.content).getD []).any
          isToolUse = true := by
      by_contra hfalse
      exact hne ((filterMap_toolUseOf_eq_nil_iff _).mpr (by simpa using hfalse))
    simp [messageHasToolUse, assistantMessageOf, hany]

theorem runWorkflow_unfold (gateway : List Message → Except GatewayError ConverseResponse)
    (t : Nat) (msgs : List Message) (calls cycles : Nat) :
    runWorkflow gateway t msgs calls cycles =
      match callBedrockModel gateway msgs with
      | Except.error e =>
        ⟨Outcome.failed (FailureCause.gatewayError e), msgs, calls + 1, cycles⟩
      | Except.ok appended =>
        match shouldContinue (messagesReducer msgs appended) with
        | Route.endRoute => ⟨Outcome.done, messagesReducer msgs appended, calls + 1, cycles⟩
        | Route.tools =>
          match t with
          | 0 =>
            ⟨Outcome.failed FailureCause.maxTurnsExceeded,
              messagesReducer msgs appended, calls + 1, cycles⟩
          | n + 1 =>
            match executeTools (messagesReducer msgs appended) with
            | Except.error s =>
              ⟨Outcome.failed (FailureCause.toolError s),
                messagesReducer msgs appended, calls + 1, cycles⟩
            | Except.ok appended2 =>
              runWorkflow gateway n
                (messagesReducer (messagesReducer msgs appended) appended2)
                (calls + 1) (cycles + 1) := by
  rw [runWorkflow]

theorem runWorkflow_step (gateway : List Message → Except GatewayError ConverseResponse)
    (t calls cycles : Nat) (msgs : List Message) :
    runWorkflow gateway t msgs calls cycles =
      match gateway msgs with
      | Except.error e =>
        ⟨Outcome.failed (FailureCause.gatewayError e), msgs, calls + 1, cycles⟩
      | Except.ok response =>
        if messageHasToolUse (assistantMessageOf response) then
          match t with
          | 0 =>
            ⟨Outcome.failed FailureCause.maxTurnsExceeded,
              msgs ++ [assistantMessageOf response], calls + 1, cycles⟩
          | n + 1 =>
            match executeTools (msgs ++ [assistantMessageOf response]) with
            | Except.error s =>
              ⟨Outcome.failed (FailureCause.toolError s),
                msgs ++ [assistantMessageOf response], calls + 1, cycles⟩
            | Except.ok appended2 =>
              runWorkflow gateway n (msgs ++ [assistantMessageOf response] ++ appended2)
                (calls + 1) (cycles + 1)
        else
          ⟨Outcome.done, msgs ++ [assistantMessageOf response], calls + 1, cycles⟩ := by
  rw [runWorkflow_unfold]
  rcases hg : gateway msgs with e | response
  · simp [callBedrockModel, hg]
  · simp only [callBedrockModel, hg, messagesReducer]
    rw [shouldContinue_append]
    rcases htool : messageHasToolUse (assistantMessageOf response)
    · simp
    · cases t with
      | zero => simp
      | succ n =>
        rcases hex : executeTools (msgs ++ [assistantMessageOf response]) with s | app2
        · simp [hex]
        · simp [hex, messagesReducer]

/-! Claim theorems. -/

/-- C10: for every query string, the bundled search tool returns the foggy San
Francisco answer exactly when the lowercased query contains the substring sf
or san francisco, and returns the sunny answer otherwise. -/
theorem searchTool_foggy_iff (query : String) :
    (searchTool ⟨query⟩ = "It\x27s 60 degrees and foggy in San Francisco." ↔
      (strIncludes (strToLower query) ("sf")
        || strIncludes (strToLower query) ("san francisco")) = true) ∧
    ((strIncludes (strToLower query) ("sf")
        || strIncludes (strToLower query) ("san francisco")) = false →
      searchTool ⟨query⟩ = "It\x27s 90 degrees and sunny.") := by
  have hdef : searchTool ⟨query⟩ =
      (if strIncludes (strToLower query) ("sf")
          || strIncludes (strToLower query) ("san francisco") then
        ("It\x27s 60 degrees and foggy in San Francisco.")
      else ("It\x27s 90 degrees and sunny.")) := rfl
  rcases hcond : strIncludes (strToLower query) ("sf")
      || strIncludes (strToLower query) ("san francisco")
  · rw [hcond] at hdef
    simp only [Bool.false_eq_true, if_false] at hdef
    exact ⟨⟨fun h => absurd (hdef.symm.trans h) (by decide), fun h => Bool.noConfusion h⟩,
      fun _ => hdef⟩
  · rw [hcond] at hdef
    simp only [if_true] at hdef
    exact ⟨⟨fun _ => rfl, fun _ => hdef⟩, fun h => Bool.noConfusion h⟩

/-- Witness for the C10 theorem at two concrete queries, one mentioning San
Francisco and one not. -/
theorem searchTool_foggy_iff_witness :
    searchTool ⟨"What is the weather in SF today"⟩
        = "It\x27s 60 degrees and foggy in San Francisco." ∧
    searchTool ⟨"What is the weather in Los Angeles"⟩
        = "It\x27s 90 degrees and sunny." := by
  constructor
  · exact (searchTool_foggy_iff "What is the weather in SF today").1.mpr (by decide)
  · exact (searchTool_foggy_iff "What is the weather in Los Angeles").2 (by decide)

/-- C8: when the most recent message of the state contains zero tool request
blocks, the tool execution step aborts the run with the no tool calls error
instead of returning a tool result message. -/
theorem executeTools_no_requests_error (messages : List Message) (m : Message)
    (hm : messages.getLast? = some m)
    (hno : ∀ b ∈ m.content.getD [], isToolUse b = false) :
    executeTools messages = Except.error ("No tool calls found in message.") := by
  have hfm : (m.content.getD []).filterMap toolUseOf = [] := by
    refine (filterMap_toolUseOf_eq_nil_iff _).mpr ?_
    simp only [List.any_eq_false]
    intro b hb
    simp [hno b hb]
  simp [executeTools, hm, hfm]

/-- Witness for the C8 theorem at a concrete text-only turn. -/
theorem executeTools_no_requests_error_witness :
    executeTools textOnlyState = Except.error ("No tool calls found in message.") :=
  executeTools_no_requests_error textOnlyState
    ⟨Role.assistant, some [ContentBlock.text ("Hello")]⟩ (by decide) (by decide)

/-- C1: for every state whose last message carries a well-formed, nonempty
sequence of tool request blocks, the tool execution step produces a single
message holding exactly one result block per request, in request order, each
result built from and id-matched to its request by mkToolResultBlock. -/
theorem executeTools_one_result_per_request (messages : List Message) (m : Message)
    (hm : messages.getLast? = some m)
    (hne : (m.content.getD []).filterMap toolUseOf ≠ []) :
    executeTools messages =
      Except.ok
        [⟨Role.user, some (((m.content.getD []).filterMap toolUseOf).map mkToolResultBlock)⟩] ∧
    (((m.content.getD []).filterMap toolUseOf).map mkToolResultBlock).length
        = ((m.content.getD []).filterMap toolUseOf).length ∧
    ∀ i : Nat,
      (((m.content.getD []).filterMap toolUseOf).map mkToolResultBlock)[i]?
        = (((m.content.getD []).filterMap toolUseOf)[i]?).map mkToolResultBlock := by
  refine ⟨executeTools_ok messages m hm hne, by simp, ?_⟩
  intro i
  simp

/-- Witness for the C1 theorem at a concrete turn with two requests. -/
theorem executeTools_one_result_per_request_witness :
    executeTools twoRequestState = Except.ok [⟨Role.user, some twoRequestBlocks⟩] ∧
    twoRequestBlocks.length = 2 ∧
    twoRequestBlocks[0]?
      = some (ContentBlock.toolResult ("id1")
          ["It\x27s 60 degrees and foggy in San Francisco."]) ∧
    twoRequestBlocks[1]? = some (ContentBlock.toolResult ("id2") ["Unknown tool: lookup"]) := by
  obtain ⟨h1, hlen, hidx⟩ :=
    executeTools_one_result_per_request twoRequestState
      ⟨Role.assistant, some
        [ContentBlock.toolUse ("id1") ("search") ⟨"weather in sf"⟩,
         ContentBlock.toolUse ("id2") ("lookup") ⟨"la"⟩]⟩ (by decide) (by decide)
  exact ⟨h1.trans (by rfl), by decide, by decide, by decide⟩

/-- C4 counterexample: at a concrete request the tool execution step returns a
message whose role is the user role, which the refinement map sends to the
spec user role and not to the spec tool result role. -/
theorem executeTools_role_counterexample :
    executeTools oneRequestState =
      Except.ok [⟨Role.user,
        some [ContentBlock.toolResult ("t1")
          ["It\x27s 60 degrees and foggy in San Francisco."]]⟩] ∧
    Role.toSpec Role.user ≠ SpecRole.toolResultRole := by
  exact ⟨by rfl, by decide⟩

/-- C4 amended: for every state whose last message carries a nonempty request
sequence, the message returned by the tool execution step has role user, the
Bedrock Converse role the source uses for tool results. -/
theorem executeTools_role_is_user (messages : List Message) (m : Message)
    (hm : messages.getLast? = some m)
    (hne : (m.content.getD []).filterMap toolUseOf ≠ []) :
    executeTools messages =
      Except.ok
        [⟨Role.user, some (((m.content.getD []).filterMap toolUseOf).map mkToolResultBlock)⟩] :=
  executeTools_ok messages m hm hne

/-- Witness for the amended C4 theorem at a concrete request for an
unregistered tool. -/
theorem executeTools_role_is_user_witness :
    executeTools unknownRequestState =
      Except.ok [⟨Role.user, some [ContentBlock.toolResult ("t9") ["Unknown tool: lookup"]]⟩] := by
  have h :=
    executeTools_role_is_user unknownRequestState
      ⟨Role.assistant, some [ContentBlock.toolUse ("t9") ("lookup") ⟨"la"⟩]⟩
      (by decide) (by decide)
  exact h.trans (by rfl)

/-- C2: when the gateway returns an assistant turn with zero tool request
blocks, the loop terminates in the done state with that turn as the final
message, and the gateway call count shows no further calls are issued. -/
theorem runWorkflow_done_on_plain_turn
    (gateway : List Message → Except GatewayError ConverseResponse)
    (t calls cycles : Nat) (msgs : List Message) (response : ConverseResponse)
    (hg : gateway msgs = Except.ok response)
    (hplain : messageHasToolUse (assistantMessageOf response) = false) :
    runWorkflow gateway t msgs calls cycles =
      ⟨Outcome.done, msgs ++ [assistantMessageOf response], calls + 1, cycles⟩ := by
  rw [runWorkflow_step]
  simp [hg, hplain]

/-- Witness for the C2 theorem with a gateway stub returning a text-only
turn. -/
theorem runWorkflow_done_on_plain_turn_witness :
    runWorkflow plainGateway 5 initialState 0 0 =
      ⟨Outcome.done, initialState ++ [assistantMessageOf plainResponse], 1, 0⟩ :=
  runWorkflow_done_on_plain_turn plainGateway 5 0 0 initialState plainResponse rfl (by decide)

/-- C5: when the gateway call fails, the loop does not retry it, makes no
further calls, and reaches the terminal failed state surfacing that gateway
error. -/
theorem runWorkflow_gateway_error_fails
    (gateway : List Message → Except GatewayError ConverseResponse)
    (t calls cycles : Nat) (msgs : List Message) (e : GatewayError)
    (hg : gateway msgs = Except.error e) :
    runWorkflow gateway t msgs calls cycles =
      ⟨Outcome.failed (FailureCause.gatewayError e), msgs, calls + 1, cycles⟩ := by
  rw [runWorkflow_step]
  simp [hg]

/-- Witness for the C5 theorem with a gateway stub failing with a timeout. -/
theorem runWorkflow_gateway_error_fails_witness :
    runWorkflow failingGateway 5 initialState 0 0 =
      ⟨Outcome.failed (FailureCause.gatewayError GatewayError.timeout), initialState, 1, 0⟩ :=
  runWorkflow_gateway_error_fails failingGateway 5 0 0 initialState GatewayError.timeout rfl

/-- C9: when the gateway response carries no output message, the model node
does not fail but appends an assistant message with empty content, and the
run completes in the done state with that empty message as the final turn. -/
theorem runWorkflow_absent_output_done
    (gateway : List Message → Except GatewayError ConverseResponse)
    (t calls cycles : Nat) (msgs : List Message) (response : ConverseResponse)
    (hg : gateway msgs = Except.ok response)
    (habsent : response.output.bind ConverseOutput.message = none) :
    assistantMessageOf response = ⟨Role.assistant, some []⟩ ∧
    runWorkflow gateway t msgs calls cycles =
      ⟨Outcome.done, msgs ++ [⟨Role.assistant, some []⟩], calls + 1, cycles⟩ := by
  have ham : assistantMessageOf response = ⟨Role.assistant, some []⟩ := by
    simp [assistantMessageOf, habsent]
  have hplain : messageHasToolUse (⟨Role.assistant, some []⟩ : Message) = false := rfl
  refine ⟨ham, ?_⟩
  rw [runWorkflow_step]
  simp [hg, ham, hplain]

/-- Witness for the C9 theorem with a gateway stub whose response has no
output. -/
theorem runWorkflow_absent_output_done_witness :
    assistantMessageOf absentOutputResponse = ⟨Role.assistant, some []⟩ ∧
    runWorkflow absentOutputGateway 5 initialState 0 0 =
      ⟨Outcome.done, initialState ++ [⟨Role.assistant, some []⟩], 1, 0⟩ :=
  runWorkflow_absent_output_done absentOutputGateway 5 0 0 initialState
    absentOutputResponse rfl (by decide)

/-- C3: when the assistant turn requests a tool name that is not in the
advertised tool configuration, the tool node still succeeds, its result
message carries an unknown tool payload for that request, and the loop
proceeds with another model call instead of aborting the run. -/
theorem runWorkflow_unknown_tool_recovered
    (gateway : List Message → Except GatewayError ConverseResponse)
    (n calls cycles : Nat) (msgs : List Message) (response : ConverseResponse)
    (req : String × String × ToolInput)
    (hg : gateway msgs = Except.ok response)
    (hmem : req ∈ requestsOf response)
    (hunknown : req.2.1 ∉ bedrockToolConfig.map ToolSpec.name) :
    executeTools (msgs ++ [assistantMessageOf response]) =
      Except.ok [⟨Role.user, some ((requestsOf response).map mkToolResultBlock)⟩] ∧
    ContentBlock.toolResult req.1 ["Unknown tool: " ++ req.2.1]
      ∈ (requestsOf response).map mkToolResultBlock ∧
    runWorkflow gateway (n + 1) msgs calls cycles =
      runWorkflow gateway n
        (msgs ++ [assistantMessageOf response,
          ⟨Role.user, some ((requestsOf response).map mkToolResultBlock)⟩])
        (calls + 1) (cycles + 1) := by
  have hneq : req.2.1 ≠ "search" := by
    simpa [bedrockToolConfig] using hunknown
  have hne : requestsOf response ≠ [] := List.ne_nil_of_mem hmem
  have hexec : executeTools (msgs ++ [assistantMessageOf response]) =
      Except.ok [⟨Role.user, some ((requestsOf response).map mkToolResultBlock)⟩] :=
    executeTools_ok _ _ (by simp) hne
  have hmk : mkToolResultBlock req = ContentBlock.toolResult req.1 ["Unknown tool: " ++ req.2.1] := by
    simp [mkToolResultBlock, runTool, hneq]
  have htool : messageHasToolUse (assistantMessageOf response) = true := by
    rw [messageHasToolUse_assistant]
    rcases hl : requestsOf response with _ | ⟨r, rest⟩
    · exact absurd hl hne
    · simp
  refine ⟨hexec, ?_, ?_⟩
  · exact hmk ▸ List.mem_map_of_mem mkToolResultBlock hmem
  · rw [runWorkflow_step]
    simp [hg, htool, hexec]

/-- Witness for the C3 theorem with a gateway stub requesting an unregistered
calculator tool. -/
theorem runWorkflow_unknown_tool_recovered_witness :
    executeTools (initialState ++ [assistantMessageOf unknownToolResponse]) =
      Except.ok [⟨Role.user,
        some [ContentBlock.toolResult ("u1") ["Unknown tool: calculator"]]⟩] ∧
    runWorkflow unknownToolGateway 3 initialState 0 0 =
      runWorkflow unknownToolGateway 2
        (initialState ++ [assistantMessageOf unknownToolResponse,
          ⟨Role.user, some [ContentBlock.toolResult ("u1") ["Unknown tool: calculator"]]⟩])
        1 1 := by
  obtain ⟨h1, hmem, h2⟩ :=
    runWorkflow_unknown_tool_recovered unknownToolGateway 2 0 0 initialState
      unknownToolResponse ("u1", "calculator", ⟨"2+2"⟩) rfl (by decide) (by decide)
  exact ⟨h1.trans (by rfl), h2.trans (by rfl)⟩

/-- Helper for C6: with a gateway that requests a tool on every call, the loop
always exhausts its turn bound, making one tool cycle per remaining turn and
one more gateway call than cycles. -/
theorem runWorkflow_always_tools_aux
    (gateway : List Message → Except GatewayError ConverseResponse)
    (h : ∀ msgs, ∃ response, gateway msgs = Except.ok response ∧
      messageHasToolUse (assistantMessageOf response) = true) :
    ∀ (t : Nat) (msgs : List Message) (calls cycles : Nat),
      (runWorkflow gateway t msgs calls cycles).outcome
          = Outcome.failed FailureCause.maxTurnsExceeded ∧
      (runWorkflow gateway t msgs calls cycles).gatewayCalls = calls + t + 1 ∧
      (runWorkflow gateway t msgs calls cycles).toolCycles = cycles + t := by
  intro t
  induction t with
  | zero =>
    intro msgs calls cycles
    obtain ⟨response, hg, htool⟩ := h msgs
    rw [runWorkflow_step]
    simp [hg, htool]
  | succ n ih =>
    intro msgs calls cycles
    obtain ⟨response, hg, htool⟩ := h msgs
    have hne : requestsOf response ≠ [] := by
      intro hnil
      rw [messageHasToolUse_assistant, hnil] at htool
      simp at htool
    have hexec : executeTools (msgs ++ [assistantMessageOf response]) =
        Except.ok [⟨Role.user, some ((requestsOf response).map mkToolResultBlock)⟩] :=
      executeTools_ok _ _ (by simp) hne
    rw [runWorkflow_step]
    simp only [hg, htool, if_true, hexec]
    obtain ⟨h1, h2, h3⟩ :=
      ih (msgs ++ [assistantMessageOf response]
          ++ [⟨Role.user, some ((requestsOf response).map mkToolResultBlock)⟩])
        (calls + 1) (cycles + 1)
    exact ⟨h1, by omega, by omega⟩

/-- C6: with a gateway that requests a tool on every call, the run fails with
the max turns exceeded cause after exactly maxTurns model to tools cycles,
never fewer and never more, having issued maxTurns plus one gateway calls. -/
theorem bedrockWorkflow_max_turns_exceeded
    (gateway : List Message → Except GatewayError ConverseResponse)
    (h : ∀ msgs, ∃ response, gateway msgs = Except.ok response ∧
      messageHasToolUse (assistantMessageOf response) = true)
    (maxTurns : Nat) (initialMessages : List Message) :
    (bedrockWorkflow gateway maxTurns initialMessages).outcome
        = Outcome.failed FailureCause.maxTurnsExceeded ∧
    (bedrockWorkflow gateway maxTurns initialMessages).toolCycles = maxTurns ∧
    (bedrockWorkflow gateway maxTurns initialMessages).gatewayCalls = maxTurns + 1 := by
  obtain ⟨h1, h2, h3⟩ := runWorkflow_always_tools_aux gateway h maxTurns initialMessages 0 0
  refine ⟨h1, ?_, ?_⟩
  · show (runWorkflow gateway maxTurns initialMessages 0 0).toolCycles = maxTurns
    omega
  · show (runWorkflow gateway maxTurns initialMessages 0 0).gatewayCalls = maxTurns + 1
    omega

/-- Witness for the C6 theorem: a stub requesting the search tool on every
call, with a bound of two turns. -/
theorem bedrockWorkflow_max_turns_exceeded_witness :
    (bedrockWorkflow alwaysToolGateway 2 initialState).outcome
        = Outcome.failed FailureCause.maxTurnsExceeded ∧
    (bedrockWorkflow alwaysToolGateway 2 initialState).toolCycles = 2 ∧
    (bedrockWorkflow alwaysToolGateway 2 initialState).gatewayCalls = 3 :=
  bedrockWorkflow_max_turns_exceeded alwaysToolGateway
    (fun _ => ⟨alwaysToolResponse, rfl, by decide⟩) 2 initialState

/-- C7: the conversation state is append only: the reducer of the messages
channel only concatenates, and from any point of the loop the current message
log is a prefix of the final message log, so no step removes or reorders
messages. -/
theorem conversationState_append_only :
    (∀ a b : List Message, a <+: messagesReducer a b) ∧
    (∀ (gateway : List Message → Except GatewayError ConverseResponse)
      (t : Nat) (msgs : List Message) (calls cycles : Nat),
      msgs <+: (runWorkflow gateway t msgs calls cycles).messages) := by
  constructor
  · intro a b
    exact List.prefix_append a b
  · intro gateway t
    induction t with
    | zero =>
      intro msgs calls cycles
      rw [runWorkflow_step]
      rcases hg : gateway msgs with e | response
      · simp [hg]
      · rcases htool : messageHasToolUse (assistantMessageOf response)
        · simp [hg, htool, List.prefix_append]
        · simp [hg, htool, List.prefix_append]
    | succ n ih =>
      intro msgs calls cycles
      rw [runWorkflow_step]
      rcases hg : gateway msgs with e | response
      · simp [hg]
      · rcases htool : messageHasToolUse (assistantMessageOf response)
        · simp [hg, htool, List.prefix_append]
        · rcases hex : executeTools (msgs ++ [assistantMessageOf response]) with s | app2
          · simp [hg, htool, hex, List.prefix_append]
          · simp only [hg, htool, if_true, hex]
            exact ((List.prefix_append msgs [assistantMessageOf response]).trans
              (List.prefix_append _ app2)).trans (ih _ _ _)

end GetWeather
